import Mathlib

/-!
Verification of the conversational dialogue engine of the voice-based
train-booking application.

The development shallowly embeds the two dialogue-engine modules of the
repository that the checked claims refer to:

* `Improved` models `app/voice/routes_improved.py` (the engine exercised by
  the repository's end-to-end tests `test_final_vui.py` / `test_fixes_vui.py`):
  the smart intent classifier `detect_smart_intent`, the entity extractors,
  the per-session dialogue dispatcher `parse_command_with_context` with its
  priority ordering, the booking slot-filling flow, and the transport wrapper
  `process_voice_command`.
* `Routes` models the extractors and confirmation handling of
  `app/voice/routes.py` (`extract_age`, `extract_phone`, `extract_gender`,
  `has_confirm_yes`/`has_confirm_no`, `handle_booking_confirm`, `reply` and
  the static `REPLIES` table).

Python string and regular-expression primitives used by the source
(`in`, `str.lower`, `str.strip`, `str.title`, `str.split`, `re.search`,
`re.findall`) are modelled by executable functions over `List Char` in the
`Py` namespace.  Database accesses and randomness are modelled by an
explicit environment record (`Improved.Env`); the optional machine-readable
`data` payload of responses is not modelled, since it is an opaque hint for
the UI.
-/

set_option autoImplicit false

namespace Py

/-- Characters matched by Python's regex class `\s` (`re` default mode,
ASCII input): space, tab, newline, carriage return, vertical tab, form feed. -/
def isSpace (c : Char) : Bool :=
  c == ' ' || c == '\t' || c == '\n' || c == '\x0d' || c == '\x0b' || c == '\x0c'

/-- Characters matched by Python's regex class `\w` on ASCII input:
letters, digits and underscore. -/
def isWordChar (c : Char) : Bool :=
  c.isAlphanum || c == '_'

/-- `startsList needle hay` holds when `needle` occurs at the head of `hay`. -/
def startsList : List Char → List Char → Bool
  | [], _ => true
  | _ :: _, [] => false
  | c :: cs, d :: ds => c == d && startsList cs ds

/-- `containsList needle hay` models Python's substring test `needle in hay`. -/
def containsList (needle : List Char) : List Char → Bool
  | [] => startsList needle []
  | d :: ds => startsList needle (d :: ds) || containsList needle ds

/-- Python's `needle in hay` on strings. -/
def isIn (needle hay : String) : Bool :=
  containsList needle.toList hay.toList

/-- Python's `str.lower()` (ASCII). -/
def lower (s : String) : String :=
  String.mk (s.toList.map Char.toLower)

/-- Python's `str.strip()` with no arguments: remove leading and trailing
whitespace. -/
def strip (s : String) : String :=
  String.mk (((s.toList.dropWhile isSpace).reverse.dropWhile isSpace).reverse)

/-- One step of Python's `str.title()`: the boolean says whether the previous
character was alphabetic. -/
def titleGo : Bool → List Char → List Char
  | _, [] => []
  | prevAlpha, c :: rest =>
    if c.isAlpha then
      (if prevAlpha then c.toLower else c.toUpper) :: titleGo true rest
    else
      c :: titleGo false rest

/-- Python's `str.title()` (ASCII): uppercase every letter that does not
follow a letter, lowercase the remaining letters. -/
def title (s : String) : String :=
  String.mk (titleGo false s.toList)

/-- Python's `str.split()` with no arguments: split on runs of whitespace,
dropping empty fields. -/
def splitWs : List Char → List (List Char)
  | [] => []
  | c :: rest =>
    let tail := splitWs rest
    if isSpace c then tail
    else
      match rest with
      | [] => [[c]]
      | d :: _ =>
        if isSpace d then [c] :: tail
        else
          match tail with
          | [] => [[c]]
          | w :: ws => (c :: w) :: ws

/-- Numeric value of a list of decimal digit characters (`int(...)`). -/
def natOfDigits (ds : List Char) : Nat :=
  ds.foldl (fun n c => n * 10 + (c.toNat - 48)) 0

/-- Fuelled scanning loop for `str.replace`; each step consumes at least one
input character, so fuel equal to the input length is always sufficient. -/
def replaceGo (pat rep : List Char) : Nat → List Char → List Char
  | 0, cs => cs
  | _ + 1, [] => []
  | fuel + 1, c :: rest =>
    if pat ≠ [] && startsList pat (c :: rest) then
      rep ++ replaceGo pat rep fuel (rest.drop (pat.length - 1))
    else
      c :: replaceGo pat rep fuel rest

/-- Python's `str.replace(pat, rep)` for a non-empty pattern: replace all
non-overlapping occurrences, scanning left to right. -/
def replaceList (pat rep cs : List Char) : List Char :=
  replaceGo pat rep cs.length cs

/-- Leftmost match of the regex `\bW\b` for a literal word `W` made of word
characters: `boundedAt` checks a match at the current position (the next
character after the word, if any, must not be a word character). -/
def boundedAt (w hay : List Char) : Bool :=
  startsList w hay &&
    (match hay.drop w.length with
     | [] => true
     | c :: _ => !isWordChar c)

/-- Scanning loop for `\bW\b`: `prev` is the character before the current
position (`none` at the start of the string). -/
def boundedSearchGo (w : List Char) : Option Char → List Char → Bool
  | _, [] => false
  | prev, c :: rest =>
    ((match prev with
      | none => true
      | some p => !isWordChar p) && boundedAt w (c :: rest))
    || boundedSearchGo w (some c) rest

/-- Python's `re.search(rf'\b{word}\b', s) is not None` for a literal word. -/
def boundedSearch (w s : String) : Bool :=
  boundedSearchGo w.toList none s.toList

end Py


namespace Improved

/-! ## Data model of `routes_improved.py`

`VOICE_SESSIONS` maps a session id to a dict with keys `state`,
`booking_in_progress`, `last_search`, `trains_available`, `history`,
`user_id`, `created_at`.  The booking draft dict has keys `train`, `stage`
(a string among `collect_name`, `collect_age`, `collect_gender`,
`confirm_booking`) and `collected` (a dict accumulating `name`, `age`,
`gender` as strings). -/

/-- A train option as stored in `trains_available` (dict rows returned by
`search_trains`). -/
structure Train where
  trainName : String
  trainNumber : String := ""
  scheduleId : Nat := 0
  departureTime : String := ""
  priceSleeper : Nat := 0
  priceAc3 : Nat := 0
  deriving Repr, DecidableEq

/-- The slot-filling stages of the booking flow (`booking['stage']`). -/
inductive Stage where
  | collectName
  | collectAge
  | collectGender
  | confirmBooking
  deriving Repr, DecidableEq

/-- Numeric position of a stage in the fixed slot-filling order. -/
def Stage.idx : Stage → Nat
  | .collectName => 0
  | .collectAge => 1
  | .collectGender => 2
  | .confirmBooking => 3

/-- The `collected` dict of a booking draft.  The source stores every value
as a string (the age is kept as the matched digit string). -/
structure Collected where
  name : Option String := none
  age : Option String := none
  gender : Option String := none
  deriving Repr, DecidableEq

/-- The `booking_in_progress` draft. -/
structure BookingFlow where
  train : Train
  stage : Stage
  collected : Collected
  deriving Repr, DecidableEq

/-- The `last_search` record (`source`/`destination`/`date`).  Dates are
modelled as absolute day numbers. -/
structure LastSearch where
  source : Option String := none
  destination : Option String := none
  date : Nat := 0
  deriving Repr, DecidableEq

/-- One voice session.  `history` keeps only the command strings (the
timestamps are diagnostic).  `state` is `none` or one of the strings
`"collecting_pnr"`, `"collecting_cancel_pnr"`, `"wait_for_locations"`. -/
structure VoiceSession where
  userId : Nat := 0
  state : Option String := none
  bookingInProgress : Option BookingFlow := none
  lastSearch : Option LastSearch := none
  trainsAvailable : List Train := []
  history : List String := []
  deriving Repr, DecidableEq

/-- The logged-in user (`current_user`): only the fields the engine reads. -/
structure User where
  id : Nat := 0
  firstName : String := ""
  phone : String := ""
  deriving Repr, DecidableEq

/-- A station row returned by `find_stations`. -/
structure Station where
  stationCode : String
  stationName : String
  city : String
  deriving Repr, DecidableEq

/-- A booking row returned by `get_booking_by_pnr` / `get_user_bookings`.
Fields read through `.get(...)` chains with `or` fallbacks are `Option`s. -/
structure BookingRec where
  pnrNumber : String := ""
  bookingStatus : String := ""
  passengerName : String := ""
  trainName : String := ""
  trainNumber : String := ""
  sourceStation : Option String := none
  sourceCity : Option String := none
  destStation : Option String := none
  destCity : Option String := none
  travelDate : String := ""
  totalAmount : Nat := 0
  deriving Repr, DecidableEq

/-- The result dict of a successful `create_booking`. -/
structure BookingRes where
  pnr : String := "N/A"
  seatNumber : String := ""
  totalAmount : Nat := 0
  deriving Repr, DecidableEq

/-- External collaborators: the booking store (database helpers from
`app.database`) together with the two impure ingredients of the module
(`random` and `datetime.now()`).  `createBooking` takes
(user id, schedule id, name, age, gender, phone, class, date) and models a
raised exception as `Except.error`; `seatRand i` is the `random.randint`
mock-seat draw of loop iteration `i`; `randPick` chooses among the canned
greetings; `todayStr` is `datetime.now().strftime('%Y-%m-%d')`. -/
structure Env where
  findStations : String → List Station
  searchTrains : String → String → List Train
  getBookingByPnr : String → Option BookingRec
  getUserBookings : Nat → Nat → List BookingRec
  cancelBookingByPnr : String → Bool
  createBooking : Nat → Nat → String → String → String → String → String → String →
    Except String (Option BookingRes)
  seatRand : Nat → Nat := fun _ => 12
  randPick : Nat := 0
  todayStr : String := ""

/-- A handler response: the `response`/`speak` dual channel plus the optional
`action` tag.  The optional `data` payload (opaque UI hint) is not modelled. -/
structure Reply where
  response : String
  speak : String
  action : Option String := none
  deriving Repr, DecidableEq

/-- The intent dict produced by `detect_smart_intent` (`{'type': ...}` plus
the entities of the matching rule). -/
inductive Intent where
  | greeting
  | help
  | cancelBooking (pnr : Option String)
  | pnrStatus (pnr : Option String)
  | bookingHistory
  | startBooking (trainIndex : Nat)
  | searchTrains (source destination : String) (date : Nat)
  | incompleteSearch
  | followUp
  | unknown
  deriving Repr, DecidableEq

/-- The context dict of `analyze_context`; only `has_recent_search` is ever
read by the classifier. -/
structure Context where
  hasRecentSearch : Bool
  conversationTurns : Nat := 0
  deriving Repr, DecidableEq

/-- `analyze_context`: `has_recent_search = bool(last_search)`,
`conversation_turns = len(history)`; the command argument is accepted and
unused, as in the source. -/
def analyze_context (_command : String) (sess : VoiceSession) : Context :=
  { hasRecentSearch := sess.lastSearch.isSome
    conversationTurns := sess.history.length }


/-! ## Entity extraction (`routes_improved.py`) -/

/-- One attempted match of `(\d\s*){10}` at the current position: `n`
repetitions of (one digit, then greedily consumed whitespace).  Returns the
matched span (`group(0)`), including the whitespace. -/
def pnrRun : Nat → List Char → Option (List Char)
  | 0, _ => some []
  | _ + 1, [] => none
  | n + 1, c :: rest =>
    if c.isDigit then
      let sp := rest.takeWhile Py.isSpace
      (pnrRun n (rest.drop sp.length)).map (fun ms => c :: (sp ++ ms))
    else
      none

/-- Leftmost match of `re.search(r'(\d\s*){10}', s)`: try every start
position from the left; backtracking inside `\s*` can never help because the
next token is always `\d`. -/
def pnrSearch : List Char → Option (List Char)
  | [] => none
  | c :: rest =>
    match pnrRun 10 (c :: rest) with
    | some m => some m
    | none => pnrSearch rest

/-- The PNR extraction idiom of `detect_smart_intent` and
`handle_cancel_booking`:
`pnr_match.group(0).replace(" ", "")` applied to the `(\d\s*){10}` match. -/
def extractPnrSeq (cmd : String) : Option String :=
  (pnrSearch cmd.toList).map (fun m => String.mk (m.filter (fun c => !(c == ' '))))

/-- `extract_digits_from_speech`: replace each spoken digit word by its digit
(dict order `zero` … `nine`), then keep the digit characters
(`re.findall(r'\d', text)` joined). -/
def extract_digits_from_speech (command : String) : List Char :=
  let numMap : List (String × Char) :=
    [("zero", '0'), ("one", '1'), ("two", '2'), ("three", '3'), ("four", '4'),
     ("five", '5'), ("six", '6'), ("seven", '7'), ("eight", '8'), ("nine", '9')]
  let text := numMap.foldl
    (fun t p => Py.replaceList p.1.toList [p.2] t) (Py.lower command).toList
  text.filter Char.isDigit

/-- The alias table of `extract_locations` (insertion order of the Python
dict literal). -/
def locationsTable : List (String × List String) :=
  [("mumbai", ["mumbai", "bombay", "csmt", "dadar"]),
   ("delhi", ["delhi", "ndls", "new delhi"]),
   ("bangalore", ["bangalore", "bengaluru", "sbc"]),
   ("kolkata", ["kolkata", "calcutta", "hwh"]),
   ("chennai", ["chennai", "madras", "mas"]),
   ("hyderabad", ["hyderabad", "hyb"]),
   ("pune", ["pune", "poona"]),
   ("ahmedabad", ["ahmedabad", "adi"]),
   ("jaipur", ["jaipur", "jp"]),
   ("lucknow", ["lucknow", "lko"]),
   ("coimbatore", ["coimbatore", "cbe", "kovai"])]

/-- One attempted match of `(?:to|towards|for)\s+([a-z]+)` at the current
position, returning the captured letter run.  The alternatives are tried in
order; `\s+` and `[a-z]+` are greedy, and backtracking into them cannot
rescue a failed continuation because the next token class is disjoint. -/
def prepMatchAt (cs : List Char) : Option (List Char) :=
  let tryWord : String → Option (List Char) := fun w =>
    if Py.startsList w.toList cs then
      let rest := cs.drop w.toList.length
      let sp := rest.takeWhile Py.isSpace
      if sp.isEmpty then none
      else
        let letters := (rest.drop sp.length).takeWhile (fun c => 'a' ≤ c && c ≤ 'z')
        if letters.isEmpty then none else some letters
    else none
  match tryWord "to" with
  | some r => some r
  | none =>
    match tryWord "towards" with
    | some r => some r
    | none => tryWord "for"

/-- Leftmost match of `re.search(r'(?:to|towards|for)\s+([a-z]+)', s)`. -/
def prepSearch : List Char → Option (List Char)
  | [] => none
  | c :: rest =>
    match prepMatchAt (c :: rest) with
    | some r => some r
    | none => prepSearch rest

/-- `extract_locations`: collect the table cities whose alias occurs in the
lowered command (order of the table, not order of appearance); with two or
more hits return the first two as `(source, destination)`; with fewer, look
for a `to/towards/for CITY` fragment and return `(None, city)` when the
captured word is a table key; otherwise `None`.

The table keys are distinct, so the `dict.fromkeys` deduplication of the
source never removes anything here.  The local `words` list of the source is
computed but never used and is omitted. -/
def extract_locations (command : String) : Option (Option String × String) :=
  let lowered := Py.lower command
  let found := (locationsTable.filter
    (fun p => p.2.any (fun a => Py.isIn a lowered))).map (fun p => p.1)
  match found with
  | a :: b :: _ => some (some a, b)
  | _ =>
    match prepSearch (Py.lower command).toList with
    | some cityChars =>
      let city := String.mk cityChars
      if locationsTable.any (fun p => p.1 == city) then some (none, city) else none
    | none => none

/-- One attempted match of `in\s+(\d+)\s+days?` at the current position,
returning the captured number. -/
def inDaysAt (cs : List Char) : Option Nat :=
  if Py.startsList "in".toList cs then
    let r1 := cs.drop 2
    let sp1 := r1.takeWhile Py.isSpace
    if sp1.isEmpty then none
    else
      let r2 := r1.drop sp1.length
      let ds := r2.takeWhile Char.isDigit
      if ds.isEmpty then none
      else
        let r3 := r2.drop ds.length
        let sp2 := r3.takeWhile Py.isSpace
        if sp2.isEmpty then none
        else
          if Py.startsList "day".toList (r3.drop sp2.length) then
            some (Py.natOfDigits ds)
          else none
  else none

/-- Leftmost match of `re.search(r'in\s+(\d+)\s+days?', s)`. -/
def inDaysSearch : List Char → Option Nat
  | [] => none
  | c :: rest =>
    match inDaysAt (c :: rest) with
    | some n => some n
    | none => inDaysSearch rest

/-- `extract_date_smart`, with `datetime.now().date()` supplied as the
absolute day number `today`.  Note that the `tomorrow` test precedes the
`day after` test, so `day after tomorrow` yields `today + 1`. -/
def extract_date_smart (today : Nat) (command : String) : Nat :=
  if Py.isIn "tomorrow" command then today + 1
  else if Py.isIn "today" command then today
  else if Py.isIn "day after" command then today + 2
  else
    match inDaysSearch command.toList with
    | some n => today + n
    | none => today


/-- First literal of `lits` that occurs at the head of `cs` (the literal sets
used below are pairwise prefix-disjoint at any position, so this is exactly
regex alternation). -/
def firstPrefix (lits : List String) (cs : List Char) : Option (List Char) :=
  (lits.find? (fun w => Py.startsList w.toList cs)).map String.toList

/-- One attempted match of
`(?:book|select|take|want)\s+(?:train|option|number)?\s*(?:one|two|three|1|2|3|first|second|third)`
at the current position, returning `group(0)`.  The optional noun is first
tried and, if its continuation fails, skipped (regex backtracking); greedy
`\s+`/`\s*` need no backtracking because no other token can match
whitespace. -/
def bookMatchAt (cs : List Char) : Option (List Char) :=
  match firstPrefix ["book", "select", "take", "want"] cs with
  | none => none
  | some v =>
    let rest := cs.drop v.length
    let sp1 := rest.takeWhile Py.isSpace
    if sp1.isEmpty then none
    else
      let r2 := rest.drop sp1.length
      let tailAt : List Char → Option (List Char) := fun r =>
        let sp2 := r.takeWhile Py.isSpace
        (firstPrefix ["one", "two", "three", "1", "2", "3", "first", "second", "third"]
            (r.drop sp2.length)).map (fun n => sp2 ++ n)
      let noOpt : Option (List Char) := (tailAt r2).map (fun t => v ++ sp1 ++ t)
      match firstPrefix ["train", "option", "number"] r2 with
      | some o =>
        match tailAt (r2.drop o.length) with
        | some t => some (v ++ sp1 ++ (o ++ t))
        | none => noOpt
      | none => noOpt

/-- Leftmost match of the booking-selection regex (`book_match`). -/
def bookSearch : List Char → Option (List Char)
  | [] => none
  | c :: rest =>
    match bookMatchAt (c :: rest) with
    | some m => some m
    | none => bookSearch rest

/-- The `train_index` computation of intent rule 5: start from 0, let each
ordinal then each number word that occurs in `match_text` override the
index (later dict entries win), let a digit character override both, and
clamp with `max(0, idx)`. -/
def pickIdx (matchText : List Char) : Nat :=
  let hasW : String → Bool := fun w => Py.containsList w.toList matchText
  let i1 : Int := if hasW "first" then 0 else 0
  let i2 : Int := if hasW "second" then 1 else i1
  let i3 : Int := if hasW "third" then 2 else i2
  let i4 : Int := if hasW "one" then 0 else i3
  let i5 : Int := if hasW "two" then 1 else i4
  let i6 : Int := if hasW "three" then 2 else i5
  let i7 : Int :=
    match matchText.find? Char.isDigit with
    | some d => (d.toNat : Int) - 48 - 1
    | none => i6
  (max 0 i7).toNat

/-- Rule 1 trigger: a greeting word with word boundaries. -/
def greetingHit (command : String) : Bool :=
  ["hello", "hi", "hey", "good morning", "good afternoon", "namaste", "sarah"].any
    (fun w => Py.boundedSearch w command)

/-- Rule 2 trigger: a help keyword. -/
def helpHit (command : String) : Bool :=
  ["help", "what can you", "how do", "assist"].any (fun w => Py.isIn w command)

/-- Rule 3 cancellation trigger. -/
def cancelKwHit (command : String) : Bool :=
  ["cancel", "delete", "void"].any (fun w => Py.isIn w command)

/-- Rule 3 status trigger. -/
def statusKwHit (command : String) : Bool :=
  ["status", "check pnr", "my pnr", "where is"].any (fun w => Py.isIn w command)

/-- `detect_smart_intent`: the ordered, short-circuiting rule cascade.
Rules that fall through on a failed inner test (history, booking selection,
search) are modelled by the corresponding nested conditionals.  The rule-6
cancellation test is kept even though rule 3 already returns on every
command containing `cancel`. -/
def detect_smart_intent (today : Nat) (command : String) (context : Context)
    (sess : VoiceSession) : Intent :=
  -- 1. greetings, with word boundaries
  if greetingHit command then .greeting
  -- 2. help
  else if helpHit command then .help
  else
    -- 3. PNR extraction, cancellation trigger, status trigger, bare PNR
    let pnr := extractPnrSeq command
    if cancelKwHit command then .cancelBooking pnr
    else if statusKwHit command then .pnrStatus pnr
    else if pnr.isSome then .pnrStatus pnr
    -- 4. booking history, suppressed by route prepositions
    else if (Py.isIn "show" command || Py.isIn "history" command ||
        (Py.isIn "my" command && Py.isIn "booking" command)) &&
        !(["to", "from", "between"].any (fun w => Py.isIn w command)) then
      .bookingHistory
    else
      -- 5. booking selection, only with a previous search in the session
      let selection : Option Nat :=
        if sess.lastSearch.isSome || !sess.trainsAvailable.isEmpty then
          match bookSearch command.toList with
          | some mt => some (pickIdx mt)
          | none =>
            if ["first", "second", "third"].any (fun w => Py.isIn w command) then
              some (pickIdx command.toList)
            else none
        else none
      match selection with
      | some idx => .startBooking idx
      | none =>
        -- 6. cancel + booking noun (unreachable after rule 3)
        if Py.isIn "cancel" command &&
            ["booking", "ticket", "train", "pnr", "reservation"].any
              (fun w => Py.isIn w command) then
          .cancelBooking none
        else
          -- 7. search / incomplete search
          let hasSearchTrigger := ["book", "train", "search", "ticket", "travel",
            "go to", "find"].any (fun w => Py.isIn w command)
          let isNotHistory := !(["show", "history", "my tickets", "previous"].any
            (fun w => Py.isIn w command))
          let searchParams := extract_locations command
          let later : Intent :=
            if (hasSearchTrigger && isNotHistory) ||
                ((match searchParams with
                  | some (a, b) =>
                    (match a with | some s => !s.isEmpty | none => false) || !b.isEmpty
                  | none => false) && isNotHistory) then
              .incompleteSearch
            -- 8. follow-up to the previous search
            else if context.hasRecentSearch &&
                ["which", "first", "best", "cheapest", "fastest", "price", "cost"].any
                  (fun w => Py.isIn w command) then
              .followUp
            else .unknown
          match searchParams with
          | some (some s, d) =>
            if !s.isEmpty && !d.isEmpty && isNotHistory then
              .searchTrains s d (extract_date_smart today command)
            else later
          | _ => later


/-! ## Handlers (`routes_improved.py`) -/

/-- Python string formatting of an optional value: `None` prints as `None`.
Used for dict entries that are always present but may hold `None`. -/
def pyStr (o : Option String) : String :=
  match o with
  | some s => s
  | none => "None"

/-- A chain `a or b or d` of Python `or`s over strings, where both missing
keys (`None`) and empty strings are falsy. -/
def firstTruthy (xs : List (Option String)) (d : String) : String :=
  match xs with
  | [] => d
  | none :: rest => firstTruthy rest d
  | some s :: rest => if s.isEmpty then firstTruthy rest d else s

/-- `handle_pnr_status_collection`: the PNR collection loop for status
checks.  The digit string extracted from speech is itself searched with
`re.search(r'(\d{10})', digits)`, which on an all-digit string succeeds
exactly when at least 10 digits are present and yields the first ten. -/
def pnrFromDigits (digits : List Char) : Option String :=
  if 10 ≤ digits.length then some (String.mk (digits.take 10)) else none

/-- `process_pnr_check_smart`: the rich PNR status report. -/
def process_pnr_check_smart (env : Env) (pnr : String) : Reply :=
  let booking := if pnr.isEmpty then none else env.getBookingByPnr pnr
  match booking with
  | none =>
    { response := "PNR " ++ pnr ++ " not found. Please double-check the number."
      speak := "I could not find that PNR. Please check the ten digit number and try again." }
  | some b =>
    let status := Py.title b.bookingStatus
    let passenger := b.passengerName
    let trainName := b.trainName
    let trainNumber := b.trainNumber
    let source := firstTruthy [b.sourceStation, b.sourceCity] "N/A"
    let dest := firstTruthy [b.destStation, b.destCity] "N/A"
    let date := b.travelDate
    let amount := toString b.totalAmount
    { response := "üîç **PNR STATUS: " ++ pnr ++ "**\n\n‚úÖ **Status**: " ++ status ++
        "\nüë§ **Passenger**: " ++ passenger ++ "\nüöÇ **Train**: " ++ trainName ++
        " (" ++ trainNumber ++ ")\nüìç **Route**: " ++ source ++ " to " ++ dest ++
        "\nüìÖ **Date**: " ++ date ++ "\nüí∞ **Fare**: ‚Çπ" ++ amount ++
        "\n\nHow else can I help?"
      speak := "Your ticket status is " ++ status ++ ". This is booked for " ++
        passenger ++ ", traveling from " ++ source ++ " to " ++ dest ++ " on the " ++
        trainName ++ ". The travel date is " ++ date ++ ". The total fare is " ++
        amount ++ " rupees. Can I help you with anything else?"
      action := some "show_pnr" }

/-- `handle_pnr_status_collection`. -/
def handle_pnr_status_collection (env : Env) (command : String)
    (sess : VoiceSession) : VoiceSession × Reply :=
  let digits := extract_digits_from_speech command
  match pnrFromDigits digits with
  | some pnr => ({ sess with state := none }, process_pnr_check_smart env pnr)
  | none =>
    if ["stop", "cancel", "exit"].any (fun w => Py.isIn w command) then
      ({ sess with state := none },
       { response := "Ok, what else can I help with?"
         speak := "Ok. What else can I help with?" })
    else
      (sess,
       { response := "I need a **10-digit number**. Please say it clearly or say 'stop'."
         speak := "I need a 10 digit number. Please say it clearly or say stop." })

/-- `handle_cancel_pnr_collection`. -/
def handle_cancel_pnr_collection (env : Env) (command : String)
    (sess : VoiceSession) : VoiceSession × Reply :=
  let digits := extract_digits_from_speech command
  match pnrFromDigits digits with
  | some pnr =>
    let sess1 := { sess with state := none }
    if env.cancelBookingByPnr pnr then
      (sess1,
       { response := "‚úì Ticket with PNR **" ++ pnr ++ "** has been successfully cancelled."
         speak := "Your ticket with PNR " ++ pnr ++
           " has been successfully cancelled. The refund will be initiated shortly."
         action := some "cancel_complete" })
    else
      (sess1,
       { response := "I couldn't find a booking with PNR **" ++ pnr ++ "**."
         speak := "I could not find that PNR. Please try again." })
  | none =>
    if ["stop", "cancel", "exit", "never mind"].any (fun w => Py.isIn w command) then
      ({ sess with state := none },
       { response := "Ok, cancellation aborted."
         speak := "Ok. Cancellation cancelled." })
    else
      (sess,
       { response := "I need a **10-digit number**. Please say the PNR again or say 'stop'."
         speak := "I need a 10 digit number. Please say the PNR again or say stop." })

/-- `handle_incomplete_search`. -/
def handle_incomplete_search (sess : VoiceSession) : VoiceSession × Reply :=
  ({ sess with state := some "wait_for_locations" },
   { response := "I can help with that! Where are you traveling from, where to, and on what date?"
     speak := "I can help with that! Where are you traveling from, where to, and on what date?" })

/-- `handle_start_booking`: seed the booking draft with the selected train. -/
def handle_start_booking (trainIndex : Nat) (sess : VoiceSession) :
    VoiceSession × Reply :=
  let trains := sess.trainsAvailable
  if trains.isEmpty || trains.length ≤ trainIndex then
    (sess,
     { response := "Please select a valid train."
       speak := "I couldn't find that train. Which one would you like?" })
  else
    match trains.get? trainIndex with
    | none =>
      (sess,
       { response := "Please select a valid train."
         speak := "I couldn't find that train. Which one would you like?" })
    | some train =>
      let draft : BookingFlow := { train := train, stage := .collectName, collected := {} }
      ({ sess with bookingInProgress := some draft },
       { response := "Great, booking **" ++ train.trainName ++ "**. What is your **full name**?"
         speak := "Ok, booking " ++ train.trainName ++ ". What is your full name?" })

/-- `complete_booking`: one commit call to the booking store; every outcome
(success, falsy result, raised exception) clears the draft.  Reads of the
`collected` dict are modelled totally with `""` for a missing key; the
source would raise `KeyError` there, which only a session violating the
stage invariant can trigger. -/
def complete_booking (env : Env) (sess : VoiceSession) (user : User) :
    VoiceSession × Reply :=
  match sess.bookingInProgress with
  | none =>
    (sess,
     { response := "Something went wrong."
       speak := "Sorry, something went wrong with the booking." })
  | some booking =>
    let train := booking.train
    let collected := booking.collected
    match env.createBooking user.id train.scheduleId (collected.name.getD "")
        (collected.age.getD "") (collected.gender.getD "") user.phone
        "sleeper" env.todayStr with
    | .ok (some result) =>
      ({ sess with bookingInProgress := none, trainsAvailable := [] },
       { response := "üéâ **CONGRATULATIONS!**\n\nYour ticket for **" ++ train.trainName ++
           "** is booked.\n‚úÖ **PNR:** " ++ result.pnr ++ "\n‚úÖ **Seat:** " ++
           result.seatNumber ++ " (Sleeper)\n\nHave a great journey! üöÇ"
         speak := "Congratulations! Your ticket is booked. Your PNR is " ++ result.pnr ++
           ". Have a great journey!"
         action := some "booking_complete" })
    | .ok none =>
      ({ sess with bookingInProgress := none },
       { response := "Booking failed. Please try again later."
         speak := "I am sorry, the booking failed. Please try again later." })
    | .error e =>
      ({ sess with bookingInProgress := none },
       { response := "Error: " ++ e
         speak := "I encountered an error while booking. Please try again." })

/-- The abort test of `handle_booking_details_collection`:
`any(w in command for w in ['cancel', 'stop', 'quit'])`. -/
def abortHit (command : String) : Bool :=
  ["cancel", "stop", "quit"].any (fun w => Py.isIn w command)

/-- The confirmation test of the `confirm_booking` stage:
`any(w in command for w in ['yes', 'yeah', 'sure', 'proceed', 'go ahead', 'confirm'])`. -/
def confirmHit (command : String) : Bool :=
  ["yes", "yeah", "sure", "proceed", "go ahead", "confirm"].any
    (fun w => Py.isIn w command)

/-- `handle_booking_details_collection`: the slot-filling stage machine.
The caller guarantees `sess.bookingInProgress = some booking`.  The final
`"I didn't quite get that."` return of the source is unreachable because
the stage string is always one of the four handled stages. -/
def handle_booking_details_collection (env : Env) (command : String)
    (sess : VoiceSession) (booking : BookingFlow) (user : User) :
    VoiceSession × Reply :=
  if abortHit command then
    ({ sess with bookingInProgress := none },
     { response := "Booking cancelled. How else can I help?"
       speak := "Cancelled. What else can I do?" })
  else
    match booking.stage with
    | .collectName =>
      let name := Py.title command
      let booking1 : BookingFlow := { booking with
        collected := { booking.collected with name := some name }, stage := .collectAge }
      ({ sess with bookingInProgress := some booking1 },
       { response := "Got it, **" ++ name ++ "**. How old are you?"
         speak := "Got it, " ++ name ++ ". How old are you?" })
    | .collectAge =>
      match command.toList.dropWhile (fun c => !c.isDigit) with
      | [] =>
        (sess,
         { response := "Please say your age as a number."
           speak := "I didn't catch that. Say your age as a number." })
      | c :: rest =>
        let age := String.mk (c :: rest.takeWhile Char.isDigit)
        let booking1 : BookingFlow := { booking with
          collected := { booking.collected with age := some age }, stage := .collectGender }
        ({ sess with bookingInProgress := some booking1 },
         { response := "Age **" ++ age ++ "**. Got it. What is your gender?"
           speak := age ++ ". Got it. What is your gender?" })
    | .collectGender =>
      let gender := if Py.isIn "male" command then "Male"
        else if Py.isIn "female" command then "Female" else "Other"
      let name := booking.collected.name.getD ""
      let age := booking.collected.age.getD ""
      let summary := booking.train.trainName ++ " for " ++ name ++ ", age " ++ age ++ "."
      let booking1 : BookingFlow := { booking with
        collected := { booking.collected with gender := some gender }, stage := .confirmBooking }
      ({ sess with bookingInProgress := some booking1 },
       { response := "‚úì **Confirm Booking Details**:\n\n‚Ä¢ Train: **" ++
           booking.train.trainName ++ "**\n‚Ä¢ Passenger: **" ++ name ++
           "**\n‚Ä¢ Age: **" ++ age ++ "**\n‚Ä¢ Gender: **" ++ gender ++
           "**\n\nShall I proceed with the booking? Say **Yes** or **No**."
         speak := "I have your details. Booking " ++ summary ++
           ". Shall I proceed with the booking?" })
    | .confirmBooking =>
      if confirmHit command then
        complete_booking env sess user
      else
        ({ sess with bookingInProgress := none },
         { response := "Booking aborted. How else can I help?"
           speak := "Ok, I have aborted the booking. What else can I do?" })

/-- `handle_cancel_booking`: immediate cancellation when a PNR is present in
the command, otherwise enter the `collecting_cancel_pnr` state. -/
def handle_cancel_booking (env : Env) (command : String) (sess : VoiceSession) :
    VoiceSession × Reply :=
  match extractPnrSeq command with
  | some pnr =>
    let sess1 := { sess with state := none }
    if env.cancelBookingByPnr pnr then
      (sess1,
       { response := "‚úì Ticket **" ++ pnr ++ "** has been successfully cancelled."
         speak := "Your ticket with PNR " ++ pnr ++
           " has been successfully cancelled. The refund will be initiated."
         action := some "cancel_complete" })
    else
      (sess1,
       { response := "PNR **" ++ pnr ++ "** not found."
         speak := "I could not find that PNR. Let's try again." })
  | none =>
    ({ sess with state := some "collecting_cancel_pnr" },
     { response := "To cancel, please say your **10-digit PNR number**."
       speak := "To cancel, please tell me your 10 digit PNR number." })


/-- `handle_follow_up_smart`. -/
def handle_follow_up_smart (command : String) (sess : VoiceSession) : Reply :=
  match sess.lastSearch with
  | none =>
    { response := "I do not have a previous search. Could you specify your route again?"
      speak := "Please tell me which stations you want to travel between." }
  | some lastSearch =>
    let source := pyStr lastSearch.source
    let dest := pyStr lastSearch.destination
    if ["which", "first", "best"].any (fun w => Py.isIn w command) then
      { response := "For your journey from " ++ source ++ " to " ++ dest ++
          ", the first option usually has great schedules. Would you like more details?"
        speak := "The first train from " ++ source ++ " to " ++ dest ++
          " is usually a good choice. Shall I help you book?" }
    else if ["cheapest", "price", "cost"].any (fun w => Py.isIn w command) then
      { response := "The most economical option from " ++ source ++ " to " ++ dest ++
          " is typically sleeper class."
        speak := "Sleeper class offers the best value for your journey from " ++
          source ++ " to " ++ dest ++ "." }
    else if ["fastest", "quick"].any (fun w => Py.isIn w command) then
      { response := "Rajdhani trains are the fastest between " ++ source ++ " and " ++
          dest ++ "."
        speak := "Rajdhani is your fastest option from " ++ source ++ " to " ++ dest ++ "." }
    else
      { response := "Regarding your " ++ source ++ " to " ++ dest ++
          " search, what would you like to know?"
        speak := "Tell me more about your " ++ source ++ " to " ++ dest ++ " trip." }

/-- The alias table of `find_stations_fuzzy` (distinct from the
`extract_locations` table: no `pune`/`ahmedabad`, and `coimbatore` lists
itself). -/
def fuzzyAliases : List (String × List String) :=
  [("mumbai", ["bombay", "csmt", "dadar"]),
   ("delhi", ["ndls", "new delhi"]),
   ("bangalore", ["bengaluru", "sbc"]),
   ("kolkata", ["calcutta", "hwh"]),
   ("chennai", ["madras", "mas"]),
   ("hyderabad", ["hyb"]),
   ("jaipur", ["jp"]),
   ("lucknow", ["lko"]),
   ("coimbatore", ["coimbatore", "cbe", "kovai"])]

/-- `find_stations_fuzzy`: direct lookup, a stable NDLS-first sort for the
exact query `delhi`, then the alias fallback (first city one of whose
aliases matches by mutual substring containment). -/
def find_stations_fuzzy (env : Env) (searchTerm : Option String) : List Station :=
  match searchTerm with
  | none => []
  | some t =>
    if t.isEmpty then []
    else
      let searchLower := Py.lower t
      let stations := env.findStations t
      if searchLower == "delhi" && !stations.isEmpty then
        stations.filter (fun s => s.stationCode == "NDLS") ++
          stations.filter (fun s => !(s.stationCode == "NDLS"))
      else if !stations.isEmpty then stations
      else
        match fuzzyAliases.find? (fun p =>
            p.2.any (fun a => Py.isIn a searchLower || Py.isIn searchLower a)) with
        | some p => env.findStations p.1
        | none => []

/-- The response/speech accumulation loop of `process_train_search_smart`
over `enumerate(trains[:3], 1)`. -/
def searchLoop (env : Env) : Nat → List Train → String × String
  | _, [] => ("", "")
  | i, t :: rest =>
    let price := if t.priceSleeper ≠ 0 then t.priceSleeper
      else if t.priceAc3 ≠ 0 then t.priceAc3 else 850
    let seats := env.seatRand i
    let line := toString i ++ ". " ++ t.trainName ++ " - " ++ t.departureTime ++
      " - From ‚Çπ" ++ toString price ++ " (" ++ toString seats ++ " seats)\n"
    let say := "Train " ++ toString i ++ " is " ++ t.trainName ++ " at " ++
      t.departureTime ++ ". Tickets start at " ++ toString price ++ " rupees with " ++
      toString seats ++ " seats available. "
    let res := searchLoop env (i + 1) rest
    (line ++ res.1, say ++ res.2)

/-- `process_train_search_smart`.  The `travel_date` argument is accepted
and ignored, exactly as in the source. -/
def process_train_search_smart (env : Env) (source destination : Option String)
    (_travelDate : Nat) (sess : VoiceSession) (_user : User) :
    VoiceSession × Reply :=
  let sourceStations := find_stations_fuzzy env source
  let destStations := find_stations_fuzzy env destination
  match sourceStations, destStations with
  | [], _ =>
    (sess,
     { response := "I could not find one of those stations. Could you try with different station names or codes?"
       speak := "I am not sure about one of those stations. Please try different station names." })
  | _, [] =>
    (sess,
     { response := "I could not find one of those stations. Could you try with different station names or codes?"
       speak := "I am not sure about one of those stations. Please try different station names." })
  | sourceStation :: _, destStation :: _ =>
    let trains := env.searchTrains sourceStation.stationName destStation.stationName
    if trains.isEmpty then
      (sess,
       { response := "No trains between " ++ sourceStation.stationName ++ " and " ++
           destStation.stationName ++ ". Try a different date?"
         speak := "No trains available for that route on that date. Would you like to try a different date?" })
    else
      let sess1 := { sess with trainsAvailable := trains.take 6 }
      let head := "Found " ++ toString trains.length ++ " trains from " ++
        sourceStation.stationName ++ " to " ++ destStation.stationName ++ ":\n\n"
      let sayHead := "I found " ++ toString trains.length ++
        " trains for your trip from " ++ sourceStation.city ++ " to " ++
        destStation.city ++ ". "
      let loopRes := searchLoop env 1 (trains.take 3)
      (sess1,
       { response := head ++ loopRes.1
         speak := sayHead ++ loopRes.2 ++
           "Which one would you like to book? Say book 1, book 2, or ask for the cheapest option."
         action := some "show_trains" })

/-- `handle_greeting_personalized`: `random.choice` over three canned
greetings, modelled by the environment's pick. -/
def handle_greeting_personalized (env : Env) (user : User) : Reply :=
  let greetings : List String :=
    ["Hello " ++ user.firstName ++
       "! I am Sarah, your AI train booking assistant. How can I help you today?",
     "Hi " ++ user.firstName ++ "! Ready to search for trains or check a PNR status?",
     "Welcome back " ++ user.firstName ++ "! I am Sarah. What can I do for you?"]
  let greeting := greetings.getD (env.randPick % 3) ""
  { response := greeting, speak := greeting }

/-- `handle_help_personalized`. -/
def handle_help_personalized (user : User) : Reply :=
  { response := "I am Sarah, your AI train booking assistant for " ++ user.firstName ++
      ".\n\n‚úì **Search Trains**: \"Search trains from Mumbai to Delhi\" or \"Book from Bangalore to Chennai tomorrow\"\n‚úì **Check PNR**: \"Check PNR 1234567890\" or \"What is status of 1234567890\"\n‚úì **My Bookings**: \"Show my bookings\" or \"My booking history\"\n‚úì **Smart Questions**: \"Which is cheapest?\", \"Which is fastest?\", \"Best price for this route?\"\n\nI learn from your preferences and remember your searches!"
    speak := "I am Sarah! I can search trains, check PNR, show your bookings, and answer follow-up questions. Just speak naturally " ++ user.firstName ++ "!" }

/-- `get_smart_suggestions`. -/
def get_smart_suggestions (command : String) (sess : VoiceSession) (_user : User) :
    List String :=
  let words := (Py.splitWs command.toList).map String.mk
  let locations := ["mumbai", "delhi", "bangalore", "kolkata", "chennai",
    "hyderabad", "pune", "ahmedabad"]
  let found := words.filter (fun w => locations.any (fun l => l == w))
  let fromCities : List String :=
    match found with
    | [a, b] => ["Search trains from " ++ a ++ " to " ++ b ++ "?"]
    | [a] => ["Which station would you like to travel to from " ++ a ++ "?"]
    | _ => []
  let fromSearch : List String :=
    match sess.lastSearch with
    | some s => ["Modify your " ++ pyStr s.source ++ " to " ++ pyStr s.destination ++
        " search?"]
    | none => []
  (fromCities ++ fromSearch).take 3

/-- `handle_unknown_smart`. -/
def handle_unknown_smart (_command : String) (suggestions : List String) : Reply :=
  let response := "Hmm, I am not sure about that request.\n\n" ++
    (if !suggestions.isEmpty then
      "Did you mean:\n" ++ String.intercalate "\n" (suggestions.map (fun s => "‚Ä¢ " ++ s))
    else
      "Please try: Search trains, Check PNR, or Show my bookings")
  { response := response
    speak := (suggestions.head?).getD "Could you rephrase that please?" }

/-- The history accumulation loop of `process_booking_history_smart` over
`enumerate(active_bookings[:3], 1)`: only iteration 1 extends the speech. -/
def historyLoop : Nat → List BookingRec → String × String
  | _, [] => ("", "")
  | i, b :: rest =>
    let line := toString i ++ ". **" ++ b.trainName ++ "** - PNR " ++ b.pnrNumber ++
      " - " ++ Py.title b.bookingStatus ++ "\n"
    let say := if i == 1 then "Your next trip is on the " ++ b.trainName ++ "." else ""
    let res := historyLoop (i + 1) rest
    (line ++ res.1, say ++ res.2)

/-- `process_booking_history_smart`: cancelled bookings are filtered out. -/
def process_booking_history_smart (env : Env) (user : User) : Reply :=
  let allBookings := env.getUserBookings user.id 10
  let activeBookings := allBookings.filter
    (fun b => !(Py.lower b.bookingStatus == "cancelled"))
  if activeBookings.isEmpty then
    { response := "You have no active bookings, " ++ user.firstName ++
        ". Would you like to search for trains?"
      speak := "No active bookings found. Would you like to search for trains?" }
  else
    let count := activeBookings.length
    let loopRes := historyLoop 1 (activeBookings.take 3)
    { response := "You have **" ++ toString count ++ "** active bookings:\n\n" ++ loopRes.1
      speak := "You have " ++ toString count ++ " active bookings. " ++ loopRes.2 }


/-! ## The dialogue dispatcher and transport wrapper -/

/-- The priority-1 interruption test of `parse_command_with_context`:
`intent['type'] == 'cancel_booking' and 'booking' in command`. -/
def isCancelInterrupt (intent : Intent) (command : String) : Bool :=
  match intent with
  | .cancelBooking _ => Py.isIn "booking" command
  | _ => false

/-- `parse_command_with_context`: the core per-turn engine.
Priorities, in source order: the two PNR-collection states; the
cancellation interruption (which first discards any draft and clears the
state); an active booking draft; the `wait_for_locations` state (falling
through to intent dispatch when no location is found); and finally the
classified intent. -/
def parse_command_with_context (env : Env) (today : Nat) (command : String)
    (sess : VoiceSession) (user : User) : VoiceSession × Reply :=
  if sess.state = some "collecting_pnr" then
    handle_pnr_status_collection env command sess
  else if sess.state = some "collecting_cancel_pnr" then
    handle_cancel_pnr_collection env command sess
  else
    let context := analyze_context command sess
    let intent := detect_smart_intent today command context sess
    if isCancelInterrupt intent command then
      let sess1 := { sess with bookingInProgress := none, state := none }
      handle_cancel_booking env command sess1
    else
      match sess.bookingInProgress with
      | some booking => handle_booking_details_collection env command sess booking user
      | none =>
        let afterLocations : Option (VoiceSession × Reply) :=
          if sess.state = some "wait_for_locations" then
            match extract_locations command with
            | some searchParams =>
              let sess1 := { sess with state := none }
              some (process_train_search_smart env searchParams.1 (some searchParams.2)
                (extract_date_smart today command) sess1 user)
            | none => none
          else none
        match afterLocations with
        | some result => result
        | none =>
          match intent with
          | .greeting => (sess, handle_greeting_personalized env user)
          | .startBooking trainIndex => handle_start_booking trainIndex sess
          | .cancelBooking _ => handle_cancel_booking env command sess
          | .searchTrains source destination date =>
            let ls : LastSearch :=
              { source := some source, destination := some destination, date := date }
            let sess1 := { sess with lastSearch := some ls }
            process_train_search_smart env (some source) (some destination) date sess1 user
          | .incompleteSearch => handle_incomplete_search sess
          | .pnrStatus pnr =>
            match pnr with
            | some p => (sess, process_pnr_check_smart env p)
            | none =>
              ({ sess with state := some "collecting_pnr" },
               { response := "Please say your **10-digit PNR number**."
                 speak := "Please say your 10 digit PNR number." })
          | .bookingHistory => (sess, process_booking_history_smart env user)
          | .followUp => (sess, handle_follow_up_smart command sess)
          | .help => (sess, handle_help_personalized user)
          | .unknown =>
            (sess, handle_unknown_smart command (get_smart_suggestions command sess user))

/-- The JSON body returned by the `/process-command` route, with the HTTP
status code made explicit (every `jsonify` in the route carries the default
or explicit code 200). -/
structure HttpOut where
  httpCode : Nat
  status : String
  message : Option String := none
  response : Option String := none
  speak : String
  deriving Repr, DecidableEq

/-- `process_voice_command` (the route handler of `routes_improved.py`):
the command is lowered and stripped; an empty command yields a
`status: 'error'` body; otherwise the body of the `try` block (session
lookup, history append, `parse_command_with_context`) either produces a
reply — returned with `status: 'success'` — or raises, in which case the
`except` branch returns a `status: 'error'` body with HTTP code 200.
The outcome of the `try` body is supplied as an `Except` value. -/
def process_voice_command (rawCommand : String)
    (body : Except String Reply) : HttpOut :=
  let command := Py.strip (Py.lower rawCommand)
  if command.isEmpty then
    { httpCode := 200
      status := "error"
      message := some "No command received"
      speak := "I did not hear anything. Please speak again." }
  else
    match body with
    | .ok result =>
      { httpCode := 200
        status := "success"
        response := some result.response
        speak := result.speak }
    | .error e =>
      { httpCode := 200
        status := "error"
        message := some ("Error: " ++ e)
        speak := "I encountered an error. Could you please rephrase that?" }

end Improved


namespace Routes

/-! ## Extractors and confirmation handling of `routes.py` -/

/-- The `KEYWORDS['confirm_yes']` list. -/
def confirmYesWords : List String :=
  ["yes", "yeah", "yep", "confirm", "ok", "okay", "sure", "correct", "right", "proceed"]

/-- The `KEYWORDS['confirm_no']` list. -/
def confirmNoWords : List String :=
  ["no", "nope", "cancel", "stop", "wrong", "change", "restart"]

/-- `has_confirm_yes`: any yes-keyword occurs as a substring of the lowered
text. -/
def has_confirm_yes (text : String) : Bool :=
  confirmYesWords.any (fun w => Py.isIn w (Py.lower text))

/-- `has_confirm_no`. -/
def has_confirm_no (text : String) : Bool :=
  confirmNoWords.any (fun w => Py.isIn w (Py.lower text))

/-- Outcome of the confirmation stage: `commitToStore` models the call
`return complete_booking(sess, user)`, whose body performs exactly one
`create_booking` call on the booking store; `discardDraft` models
`clear_booking(sess)` followed by the `booking_cancelled` reply;
`reprompt` models re-asking at the same stage. -/
inductive ConfirmAction where
  | commitToStore
  | discardDraft
  | reprompt
  deriving Repr, DecidableEq

/-- `handle_booking_confirm`: the yes-keywords are tested before the
no-keywords, each by substring containment. -/
def handle_booking_confirm (text : String) : ConfirmAction :=
  if has_confirm_yes text then .commitToStore
  else if has_confirm_no text then .discardDraft
  else .reprompt

/-- Leftmost match of `re.search(r'\b(\d{1,3})\b', text)`: scan position by
position (`prev` is the previous character).  A maximal digit run matches
iff the character before it is absent or a non-word character, its length
is at most 3, and the character after it is absent or a non-word
character; the greedy `\d{1,3}` then captures the whole run. -/
def ageSearchGo : Option Char → List Char → Option Nat
  | _, [] => none
  | prev, c :: rest =>
    if c.isDigit && (match prev with | none => true | some p => !Py.isWordChar p) then
      let run := (c :: rest).takeWhile Char.isDigit
      let after := (c :: rest).drop run.length
      if run.length ≤ 3 &&
          (match after with | [] => true | d :: _ => !Py.isWordChar d) then
        some (Py.natOfDigits run)
      else ageSearchGo (some c) rest
    else ageSearchGo (some c) rest

/-- The `age_words` dict of `extract_age`, in insertion order.  First
substring match wins, so `twenty` shadows every `twenty …` entry. -/
def ageWords : List (String × Nat) :=
  [("eighteen", 18), ("nineteen", 19), ("twenty", 20),
   ("twenty one", 21), ("twenty two", 22), ("twenty three", 23),
   ("twenty four", 24), ("twenty five", 25), ("twenty six", 26),
   ("twenty seven", 27), ("twenty eight", 28), ("twenty nine", 29),
   ("thirty", 30), ("thirty five", 35), ("forty", 40),
   ("forty five", 45), ("fifty", 50), ("sixty", 60)]

/-- `extract_age`: first a bare 1–3 digit number with word boundaries,
accepted when in 1..120; otherwise the first matching age word of the
lowered text. -/
def extract_age (text : String) : Option Nat :=
  let fromWords : Option Nat :=
    (ageWords.find? (fun p => Py.isIn p.1 (Py.lower text))).map (fun p => p.2)
  match ageSearchGo none text.toList with
  | some age => if 1 ≤ age && age ≤ 120 then some age else fromWords
  | none => fromWords

/-- The `word_digits` dict of `extract_phone`. -/
def wordDigits : List (String × Char) :=
  [("zero", '0'), ("oh", '0'), ("o", '0'),
   ("one", '1'), ("two", '2'), ("three", '3'),
   ("four", '4'), ("five", '5'), ("six", '6'),
   ("seven", '7'), ("eight", '8'), ("nine", '9')]

/-- The digit characters of the text followed by the digits contributed by
spelled digit-words (whitespace-separated words of the lowered text that
are dict keys), in that order — exactly the `digits` string built by
`extract_phone`. -/
def phoneDigits (text : String) : List Char :=
  let digits := text.toList.filter Char.isDigit
  let words := (Py.splitWs (Py.lower text).toList).map String.mk
  digits ++ words.filterMap
    (fun w => (wordDigits.find? (fun p => p.1 == w)).map (fun p => p.2))

/-- `extract_phone`: with at least 10 collected digits, the first 10 are
returned; otherwise `None`. -/
def extract_phone (text : String) : Option String :=
  let digits := phoneDigits text
  if 10 ≤ digits.length then some (String.mk (digits.take 10)) else none

/-- `extract_gender`: male keywords, then female, then other — each by
substring containment of the lowered text. -/
def extract_gender (text : String) : Option String :=
  let lowered := Py.lower text
  if ["male", "man", "boy", "gent"].any (fun w => Py.isIn w lowered) then some "Male"
  else if ["female", "woman", "girl", "lady"].any (fun w => Py.isIn w lowered) then
    some "Female"
  else if ["other"].any (fun w => Py.isIn w lowered) then some "Other"
  else none

/-- A handler response record of `routes.py` (`reply`): the `data` payload
is not modelled. -/
structure RReply where
  response : String
  speak : String
  action : Option String := none
  deriving Repr, DecidableEq

/-- `reply(text, speak=None, action=None, data=None)`: the speech channel is
`speak or text`, so a missing or empty `speak` falls back to `text`
verbatim. -/
def reply (text : String) (speak : Option String := none)
    (action : Option String := none) : RReply :=
  { response := text
    speak := match speak with
      | some s => if s.isEmpty then text else s
      | none => text
    action := action }

/-- `REPLIES['help']`. -/
def REPLIES_help : String :=
  "I can help you with:\n\n🚂 **Search Trains**: \"trains from Mumbai to Delhi\"\n🎫 **Book Ticket**: After search, say \"book 1\" or \"book first\"\n📋 **Check PNR**: \"check PNR 1234567890\"\n📜 **My Bookings**: \"show my bookings\"\n\nJust speak naturally!"

/-- The help response of `process_dialogue`:
`if intent == 'help': return reply(REPLIES['help'])`. -/
def helpReply : RReply := reply REPLIES_help

end Routes




/-! ## Concrete fixtures for witnesses and counterexamples -/

/-- An environment whose booking store is empty and never succeeds. -/
def envTrivial : Improved.Env where
  findStations := fun _ => []
  searchTrains := fun _ _ => []
  getBookingByPnr := fun _ => none
  getUserBookings := fun _ _ => []
  cancelBookingByPnr := fun _ => false
  createBooking := fun _ _ _ _ _ _ _ _ => Except.ok none

/-- A sample train. -/
def trainA : Improved.Train := { trainName := "Rajdhani Express" }

/-- A sample user. -/
def userA : Improved.User := {}

/-- A context with no previous search. -/
def ctxA : Improved.Context := { hasRecentSearch := false }

/-- A fresh session. -/
def sessEmpty : Improved.VoiceSession := {}

/-- A booking draft waiting for the passenger name. -/
def draftNameA : Improved.BookingFlow :=
  { train := trainA, stage := .collectName, collected := {} }

/-- A booking draft waiting for the passenger age. -/
def draftAgeA : Improved.BookingFlow :=
  { train := trainA, stage := .collectAge, collected := { name := some "John" } }

/-- A session in the middle of the booking flow, at the age stage. -/
def sessAgeA : Improved.VoiceSession := { bookingInProgress := some draftAgeA }

/-- A session in the middle of the booking flow, at the name stage. -/
def sessNameA : Improved.VoiceSession := { bookingInProgress := some draftNameA }

/-- A sample reply used as a `try`-body outcome. -/
def replyA : Improved.Reply := { response := "ok", speak := "ok" }

/-- The booking draft of `sessAgeA` after the utterance `"i am 30"`:
age collected, stage advanced to `collect_gender`. -/
def draftGenderA : Improved.BookingFlow :=
  { train := trainA, stage := .collectGender,
    collected := { name := some "John", age := some "30" } }

section PyExamples

example : Py.isIn "male" "female" = true := by decide
example : Py.isIn "cancel" "delete my booking" = false := by decide
example : Py.splitWs "  one  two ".toList = ["one".toList, "two".toList] := by decide
example : Py.title "my name is" = "My Name Is" := by decide
example : Py.strip "  hi  " = "hi" := by decide
example : Py.replaceList "one".toList "1".toList "phone one".toList = "ph1 1".toList := by
  decide
example : Py.boundedSearch "hi" "hi 1234567890" = true := by decide
example : Py.boundedSearch "hi" "delhi to mumbai" = false := by decide
example : Py.natOfDigits "105".toList = 105 := by decide

end PyExamples

/-! ## Claims -/

/-- C1, counterexample: the utterance `"hi 1234567890"` contains the
contiguous 10-digit number `1234567890` and no cancellation keyword, yet
`detect_smart_intent` classifies it as a greeting (rule 1 fires on the word
`hi` before the PNR rules are reached), not as the PNR-status intent. -/
theorem claim_C1_counterexample :
    Improved.detect_smart_intent 0 "hi 1234567890" ctxA sessEmpty =
      Improved.Intent.greeting ∧
    Improved.extractPnrSeq "hi 1234567890" = some "1234567890" ∧
    Improved.cancelKwHit "hi 1234567890" = false ∧
    Improved.Intent.greeting ≠ Improved.Intent.pnrStatus (some "1234567890") := by
  refine ⟨rfl, by decide, by decide, by decide⟩

/-- C2, evaluation at the failing input: for
`"trains from delhi to mumbai"` the city-pair extractor returns
`(source, destination) = (mumbai, delhi)` — the cities in the fixed order of
the alias table, not in their order of first appearance — and the
classifier therefore emits a search with source and destination swapped. -/
theorem claim_C2_table_order :
    Improved.extract_locations "trains from delhi to mumbai" =
      some (some "mumbai", "delhi") ∧
    Improved.detect_smart_intent 0 "trains from delhi to mumbai" ctxA sessEmpty =
      Improved.Intent.searchTrains "mumbai" "delhi" 0 := by
  refine ⟨by decide, rfl⟩

/-- C6, evaluation at the failing input: in the age stage the utterance
`"i am twenty five"` does not yield age 25.  The `routes.py` extractor
returns 20, because the `age_words` entry `twenty` is tested before
`twenty five` and matches by substring containment; the active
`routes_improved.py` engine only accepts digit ages and re-prompts, leaving
the session unchanged at `collect_age`. -/
theorem claim_C6_twenty_five :
    Routes.extract_age "i am twenty five" = some 20 ∧
    (Improved.parse_command_with_context envTrivial 0 "i am twenty five"
      sessAgeA userA).1 = sessAgeA ∧
    draftAgeA.stage = Improved.Stage.collectAge := by
  refine ⟨by decide, rfl, rfl⟩

/-- C9: the gender extractor of `routes.py` returns `Male` for the
utterances `"female"` and `"woman"`, whose only gender word is a female
keyword, because the male keyword list is tested first and matches by
substring containment (`male` inside `female`, `man` inside `woman`). -/
theorem claim_C9_female_reads_male :
    Routes.extract_gender "female" = some "Male" ∧
    Routes.extract_gender "woman" = some "Male" := by
  refine ⟨rfl, rfl⟩

/-- C10: the confirm-stage handler of `routes.py` commits the booking to
the store for the refusal utterances `"not correct"` and `"no, ok wait"`:
`has_confirm_yes` is checked before `has_confirm_no` and matches by
substring containment (`correct`, `ok`), even though both utterances also
contain a negative keyword. -/
theorem claim_C10_refusal_commits :
    Routes.handle_booking_confirm "not correct" = Routes.ConfirmAction.commitToStore ∧
    Routes.handle_booking_confirm "no, ok wait" = Routes.ConfirmAction.commitToStore ∧
    Routes.has_confirm_no "not correct" = true ∧
    Routes.has_confirm_no "no, ok wait" = true := by
  refine ⟨rfl, rfl, by decide, by decide⟩

/-- C7, counterexample: the utterance `"12345678901"` yields eleven digits,
yet the phone extractor returns the first ten of them instead of
not-found. -/
theorem claim_C7_counterexample :
    Routes.extract_phone "12345678901" = some "1234567890" ∧
    (Routes.phoneDigits "12345678901").length = 11 := by
  refine ⟨by decide, by decide⟩

/-- C8, counterexample: the response record the dialogue manager returns
for the help intent (`reply(REPLIES['help'])`) uses the markup-laden help
text verbatim as its speech channel, so the speech contains the markdown
symbol `*`. -/
theorem claim_C8_counterexample :
    Routes.helpReply.speak = Routes.REPLIES_help ∧
    Routes.helpReply.speak.toList.contains '*' = true := by
  refine ⟨rfl, by decide⟩

/-- C8, amended: the composer's speech channel falls back to the text
channel verbatim (`speak or text`), so every record built from a non-empty
text has a non-empty speech channel; the speech may however contain markup,
as the help record shows. -/
theorem claim_C8_amended (text : String) (speak action : Option String)
    (h : text ≠ "") : (Routes.reply text speak action).speak ≠ "" := by
  unfold Routes.reply
  cases speak with
  | none => exact h
  | some s =>
    by_cases hs : s.isEmpty
    · simpa [hs] using h
    · simp only [hs]
      simpa [String.isEmpty_iff] using hs

/-- C8, witness for the amended theorem at a concrete record. -/
theorem claim_C8_witness :
    ("Searching now." : String) ≠ "" ∧
    (Routes.reply "Searching now." none none).speak ≠ "" := by
  refine ⟨by decide, claim_C8_amended "Searching now." none none (by decide)⟩

/-- C5, counterexample: the active `/process-command` route of
`routes_improved.py` reports `status: 'error'` in the JSON body both for an
empty command (a validation problem) and when the engine raises, although
the HTTP code stays 200; the claim that such cases are returned with
transport status `success` fails. -/
theorem claim_C5_counterexample :
    (Improved.process_voice_command "   " (Except.ok replyA)).status = "error" ∧
    (Improved.process_voice_command "hello" (Except.error "boom")).status = "error" ∧
    (Improved.process_voice_command "hello" (Except.error "boom")).httpCode = 200 := by
  refine ⟨rfl, rfl, rfl⟩

/-- C5, amended: the route never signals an HTTP-level failure — every
outcome, including an empty command and a raised exception, is answered
with HTTP code 200 — and whenever the command is non-empty after
lowering/stripping and the engine body returns a reply, the JSON body
carries `status: 'success'` with that reply's speech; an empty command or a
raised exception instead yields a body with `status: 'error'` at HTTP
200. -/
theorem claim_C5_amended (rawCommand : String) (body : Except String Improved.Reply) :
    (Improved.process_voice_command rawCommand body).httpCode = 200 ∧
    (∀ r : Improved.Reply, (Py.strip (Py.lower rawCommand)).isEmpty = false →
      body = Except.ok r →
      (Improved.process_voice_command rawCommand body).status = "success" ∧
      (Improved.process_voice_command rawCommand body).speak = r.speak) := by
  constructor
  · unfold Improved.process_voice_command
    by_cases h : (Py.strip (Py.lower rawCommand)).isEmpty
    · simp [h]
    · cases body <;> simp [h]
  · intro r hne hbody
    subst hbody
    unfold Improved.process_voice_command
    simp [hne]

/-- C5, witness: a concrete non-empty command with a successful body. -/
theorem claim_C5_witness :
    (Py.strip (Py.lower "Hello")).isEmpty = false ∧
    (Improved.process_voice_command "Hello" (Except.ok replyA)).httpCode = 200 ∧
    (Improved.process_voice_command "Hello" (Except.ok replyA)).status = "success" ∧
    (Improved.process_voice_command "Hello" (Except.ok replyA)).speak = replyA.speak := by
  have h := claim_C5_amended "Hello" (Except.ok replyA)
  have h2 := h.2 replyA (by decide) rfl
  exact ⟨by decide, h.1, h2.1, h2.2⟩

/-- C4: with a booking flow active (and the session not in a PNR-collection
state, which cannot coexist with a draft), the utterance
`"cancel my booking"` triggers the priority-1 cancellation interruption
before the flow-stage handler runs: the draft is discarded, the session
moves to the `collecting_cancel_pnr` state, and the returned prompt asks
for the 10-digit PNR. -/
theorem claim_C4_cancel_interrupt (env : Improved.Env) (today : Nat)
    (sess : Improved.VoiceSession) (user : Improved.User) (b : Improved.BookingFlow)
    (_hb : sess.bookingInProgress = some b)
    (h1 : sess.state ≠ some "collecting_pnr")
    (h2 : sess.state ≠ some "collecting_cancel_pnr") :
    (Improved.parse_command_with_context env today "cancel my booking" sess user).1.bookingInProgress
        = none ∧
    (Improved.parse_command_with_context env today "cancel my booking" sess user).1.state
        = some "collecting_cancel_pnr" ∧
    (Improved.parse_command_with_context env today "cancel my booking" sess user).2.response
        = "To cancel, please say your **10-digit PNR number**." ∧
    (Improved.parse_command_with_context env today "cancel my booking" sess user).2.speak
        = "To cancel, please tell me your 10 digit PNR number." := by
  unfold Improved.parse_command_with_context
  rw [if_neg h1, if_neg h2]
  exact ⟨rfl, rfl, rfl, rfl⟩

/-- C4, witness: the interruption at a concrete mid-flow session. -/
theorem claim_C4_witness :
    sessAgeA.bookingInProgress = some draftAgeA ∧
    sessAgeA.state ≠ some "collecting_pnr" ∧
    sessAgeA.state ≠ some "collecting_cancel_pnr" ∧
    (Improved.parse_command_with_context envTrivial 0 "cancel my booking" sessAgeA userA).1.bookingInProgress
        = none ∧
    (Improved.parse_command_with_context envTrivial 0 "cancel my booking" sessAgeA userA).1.state
        = some "collecting_cancel_pnr" := by
  have h := claim_C4_cancel_interrupt envTrivial 0 sessAgeA userA draftAgeA rfl
    (by decide) (by decide)
  exact ⟨rfl, by decide, by decide, h.1, h.2.1⟩

/-- Helper: without `booking` in the command, the priority-1 interruption
test is false for every intent. -/
theorem Improved.isCancelInterrupt_of_no_booking (intent : Improved.Intent)
    (cmd : String) (h : Py.isIn "booking" cmd = false) :
    Improved.isCancelInterrupt intent cmd = false := by
  cases intent <;> simp [Improved.isCancelInterrupt, h]

/-- Helper: the classifier only returns the cancellation intent when one of
the keywords `cancel`, `delete`, `void` occurs in the command (rule 3; the
dead rule 6 additionally requires `cancel` itself). -/
theorem Improved.cancelBooking_requires_kw (today : Nat) (cmd : String)
    (ctx : Improved.Context) (sess : Improved.VoiceSession) (p : Option String)
    (h : Improved.cancelKwHit cmd = false) :
    Improved.detect_smart_intent today cmd ctx sess ≠ Improved.Intent.cancelBooking p := by
  have hc : Py.isIn "cancel" cmd = false := by
    simp only [Improved.cancelKwHit, List.any_cons, List.any_nil,
      Bool.or_eq_false_iff] at h
    exact h.1
  intro hp
  unfold Improved.detect_smart_intent at hp
  simp only [h, hc, Bool.false_and, Bool.false_eq_true, if_false] at hp
  repeat' split at hp
  all_goals exact Improved.Intent.noConfusion hp

/-- C3, counterexample: at the `collect_age` stage, the utterance
`"delete my booking"` contains no abort keyword (`cancel`/`stop`/`quit`),
yet the turn neither advances the stage nor re-prompts it: the
cancellation interruption (rule-3 keyword `delete` plus the word `booking`)
discards the draft and moves the session into the `collecting_cancel_pnr`
state, leaving the `BookingInProgress` mode entirely. -/
theorem claim_C3_counterexample :
    Improved.abortHit "delete my booking" = false ∧
    sessAgeA.bookingInProgress = some draftAgeA ∧
    draftAgeA.stage = Improved.Stage.collectAge ∧
    (Improved.parse_command_with_context envTrivial 0 "delete my booking"
      sessAgeA userA).1.bookingInProgress = none ∧
    (Improved.parse_command_with_context envTrivial 0 "delete my booking"
      sessAgeA userA).1.state = some "collecting_cancel_pnr" := by
  refine ⟨by decide, rfl, rfl, rfl, rfl⟩

/-- C3, amended: while the session holds a booking draft (and is not in a
PNR-collection state), any utterance containing neither an abort keyword
(`cancel`, `stop`, `quit`) nor a ticket-cancellation interrupt combination
(`delete` or `void` together with `booking`) is handled by the slot-filling
stage machine: the stage either stays the same (with a re-prompt) or
advances by exactly one position, and the draft is only discarded from the
final `confirm_booking` stage; the stage never regresses and never skips. -/
theorem claim_C3_amended (env : Improved.Env) (today : Nat) (cmd : String)
    (sess : Improved.VoiceSession) (user : Improved.User) (b : Improved.BookingFlow)
    (hb : sess.bookingInProgress = some b)
    (h1 : sess.state ≠ some "collecting_pnr")
    (h2 : sess.state ≠ some "collecting_cancel_pnr")
    (habort : Improved.abortHit cmd = false)
    (hint : ((Py.isIn "delete" cmd || Py.isIn "void" cmd) && Py.isIn "booking" cmd)
      = false) :
    (match (Improved.parse_command_with_context env today cmd sess user).1.bookingInProgress with
     | some b2 => b2.stage = b.stage ∨ b2.stage.idx = b.stage.idx + 1
     | none => b.stage = Improved.Stage.confirmBooking) := by
  have hcancel : Py.isIn "cancel" cmd = false := by
    simp only [Improved.abortHit, List.any_cons, List.any_nil,
      Bool.or_eq_false_iff] at habort
    exact habort.1
  have hI : Improved.isCancelInterrupt
      (Improved.detect_smart_intent today cmd (Improved.analyze_context cmd sess) sess)
      cmd = false := by
    by_cases hbk : Py.isIn "booking" cmd = true
    · have hkw : Improved.cancelKwHit cmd = false := by
        simp only [hbk, Bool.and_true, Bool.or_eq_false_iff] at hint
        simp [Improved.cancelKwHit, hcancel, hint.1, hint.2]
      cases hi : Improved.detect_smart_intent today cmd
          (Improved.analyze_context cmd sess) sess with
      | cancelBooking p =>
        exact absurd hi (Improved.cancelBooking_requires_kw today cmd _ sess p hkw)
      | _ => rfl
    · exact Improved.isCancelInterrupt_of_no_booking _ cmd (by simpa using hbk)
  unfold Improved.parse_command_with_context
  rw [if_neg h1, if_neg h2]
  simp only [hI, Bool.false_eq_true, if_false, hb]
  unfold Improved.handle_booking_details_collection
  simp only [habort, Bool.false_eq_true, if_false]
  cases hstage : b.stage with
  | collectName => simp [hstage, Improved.Stage.idx]
  | collectAge =>
    cases hdw : cmd.toList.dropWhile (fun c => !c.isDigit) with
    | nil => simp [hdw, hstage, hb, Improved.Stage.idx]
    | cons c rest => simp [hdw, hstage, Improved.Stage.idx]
  | collectGender => simp [hstage, Improved.Stage.idx]
  | confirmBooking =>
    by_cases hcf : Improved.confirmHit cmd = true
    · simp only [hcf, if_true]
      unfold Improved.complete_booking
      rw [hb]
      dsimp only
      cases hcb : env.createBooking user.id b.train.scheduleId
          (b.collected.name.getD "") (b.collected.age.getD "")
          (b.collected.gender.getD "") user.phone "sleeper" env.todayStr with
      | ok r => cases r <;> simp [hstage]
      | error e => simp [hstage]
    · simp [hcf, hstage]

/-- C3, witness for the amended theorem: a concrete valid age utterance at
the age stage advances the draft by exactly one stage. -/
theorem claim_C3_witness :
    Improved.abortHit "i am 30" = false ∧
    ((Py.isIn "delete" "i am 30" || Py.isIn "void" "i am 30") &&
      Py.isIn "booking" "i am 30") = false ∧
    (Improved.parse_command_with_context envTrivial 0 "i am 30" sessAgeA
      userA).1.bookingInProgress = some draftGenderA ∧
    (draftGenderA.stage = draftAgeA.stage ∨
      draftGenderA.stage.idx = draftAgeA.stage.idx + 1) := by
  refine ⟨by decide, by decide, rfl, ?_⟩
  exact claim_C3_amended envTrivial 0 "i am 30" sessAgeA userA draftAgeA rfl
    (by decide) (by decide) (by decide) (by decide)

/-- Helper: a decimal digit is not regex whitespace. -/
theorem Py.isSpace_eq_false_of_isDigit (c : Char) (h : c.isDigit = true) :
    Py.isSpace c = false := by
  simp only [Py.isSpace, Bool.or_eq_false_iff, beq_eq_false_iff_ne, ne_eq]
  refine ⟨⟨⟨⟨⟨?_, ?_⟩, ?_⟩, ?_⟩, ?_⟩, ?_⟩ <;> (rintro rfl; exact absurd h (by decide))

/-- Helper: a decimal digit is not the blank character. -/
theorem Char.ne_blank_of_isDigit (c : Char) (h : c.isDigit = true) : c ≠ ' ' := by
  rintro rfl; exact absurd h (by decide)

/-- Helper: a `(\d\s*){n+1}` attempt fails immediately on a non-digit. -/
theorem Improved.pnrRun_nondigit (n : Nat) (c : Char) (l : List Char)
    (h : c.isDigit = false) : Improved.pnrRun (n + 1) (c :: l) = none := by
  simp [Improved.pnrRun, h]

/-- Helper: the single-repetition step of `(\d\s*){n+1}` on a digit. -/
theorem Improved.pnrRun_cons_digit (n : Nat) (c : Char) (rest : List Char)
    (h : c.isDigit = true) :
    Improved.pnrRun (n + 1) (c :: rest) =
      (Improved.pnrRun n (rest.drop (rest.takeWhile Py.isSpace).length)).map
        (fun ms => c :: (rest.takeWhile Py.isSpace ++ ms)) := by
  simp [Improved.pnrRun, h]

/-- Helper: a `(\d\s*){n}` attempt on `n` contiguous digits followed by
anything consumes exactly those digits plus the trailing whitespace. -/
theorem Improved.pnrRun_digits (ds b : List Char) (hne : ds ≠ [])
    (hd : ∀ c ∈ ds, c.isDigit = true) :
    Improved.pnrRun ds.length (ds ++ b) = some (ds ++ b.takeWhile Py.isSpace) := by
  induction ds with
  | nil => exact absurd rfl hne
  | cons c cs ih =>
    have hc : c.isDigit = true := hd c (List.mem_cons_self c cs)
    cases cs with
    | nil => simp [Improved.pnrRun, hc]
    | cons c2 cs2 =>
      have hc2 : c2.isDigit = true := hd c2 (by simp)
      have hsp2 : Py.isSpace c2 = false := Py.isSpace_eq_false_of_isDigit c2 hc2
      have ihr := ih (by simp) (fun x hx => hd x (List.mem_cons_of_mem c hx))
      have htw : List.takeWhile Py.isSpace ((c2 :: cs2) ++ b) = [] := by
        rw [List.cons_append, List.takeWhile_cons]
        simp [hsp2]
      rw [show ((c :: c2 :: cs2) ++ b) = c :: ((c2 :: cs2) ++ b) from rfl,
        List.length_cons, Improved.pnrRun_cons_digit (c2 :: cs2).length c _ hc,
        htw]
      simp only [List.length_nil, List.drop_zero, List.nil_append]
      rw [ihr]
      simp

/-- Helper: the leftmost `(\d\s*){10}` search skips a leading non-digit. -/
theorem Improved.pnrSearch_cons_nondigit (c : Char) (l : List Char)
    (h : c.isDigit = false) :
    Improved.pnrSearch (c :: l) = Improved.pnrSearch l := by
  have h10 : Improved.pnrRun 10 (c :: l) = none := Improved.pnrRun_nondigit 9 c l h
  simp [Improved.pnrSearch, h10]

/-- Helper: the leftmost `(\d\s*){10}` search skips a digit-free prefix. -/
theorem Improved.pnrSearch_append_nondigit (a l : List Char)
    (ha : ∀ c ∈ a, c.isDigit = false) :
    Improved.pnrSearch (a ++ l) = Improved.pnrSearch l := by
  induction a with
  | nil => rfl
  | cons c cs ih =>
    rw [List.cons_append, Improved.pnrSearch_cons_nondigit c _ (ha c (by simp))]
    exact ih (fun x hx => ha x (by simp [hx]))

/-- Helper: the `(\d\s*){10}` search succeeds on ten contiguous digits and
captures them together with the trailing whitespace. -/
theorem Improved.pnrSearch_digits10 (ds b : List Char) (hlen : ds.length = 10)
    (hd : ∀ c ∈ ds, c.isDigit = true) :
    Improved.pnrSearch (ds ++ b) = some (ds ++ b.takeWhile Py.isSpace) := by
  have hne : ds ≠ [] := by intro h; subst h; simp at hlen
  have hrun := Improved.pnrRun_digits ds b hne hd
  rw [hlen] at hrun
  cases ds with
  | nil => simp at hlen
  | cons c cs =>
    simp only [List.cons_append] at hrun ⊢
    simp [Improved.pnrSearch, hrun]

/-- Helper: on a command whose digit characters start with a contiguous
run of exactly ten digits and whose whitespace is made of plain blanks,
the PNR extraction of `routes_improved.py` returns exactly that run. -/
theorem Improved.extractPnrSeq_single_run (cmd : String) (a ds b : List Char)
    (hsplit : cmd.toList = a ++ ds ++ b)
    (hlen : ds.length = 10)
    (hd : ∀ c ∈ ds, c.isDigit = true)
    (ha : ∀ c ∈ a, c.isDigit = false)
    (hsp : ∀ c ∈ cmd.toList, Py.isSpace c = true → c = ' ') :
    Improved.extractPnrSeq cmd = some (String.mk ds) := by
  unfold Improved.extractPnrSeq
  rw [hsplit, List.append_assoc, Improved.pnrSearch_append_nondigit a _ ha,
    Improved.pnrSearch_digits10 ds b hlen hd]
  have h1 : ds.filter (fun c => !(c == ' ')) = ds := by
    apply List.filter_eq_self.mpr
    intro c hc
    simpa using Char.ne_blank_of_isDigit c (hd c hc)
  have h2 : (b.takeWhile Py.isSpace).filter (fun c => !(c == ' ')) = [] := by
    apply List.filter_eq_nil_iff.mpr
    intro c hc
    have hmem : c ∈ b := (List.takeWhile_prefix Py.isSpace).subset hc
    have hspc' : Py.isSpace c = true := List.mem_takeWhile_imp hc
    have hcmem : c ∈ cmd.toList := by
      rw [hsplit]
      exact List.mem_append.mpr (Or.inr hmem)
    have hblank : c = ' ' := hsp c hcmem hspc'
    simp [hblank]
  simp [List.filter_append, h1, h2]

/-- C1, amended: for every utterance whose digit characters form a single
contiguous run of exactly ten digits, whose whitespace characters are plain
blanks, and which contains no cancellation keyword, no greeting word (at
word boundaries) and no help keyword, the classifier returns the
PNR-status intent carrying exactly that 10-digit run. -/
theorem claim_C1_amended (today : Nat) (cmd : String) (ctx : Improved.Context)
    (sess : Improved.VoiceSession) (a ds b : List Char)
    (hsplit : cmd.toList = a ++ ds ++ b)
    (hlen : ds.length = 10)
    (hd : ∀ c ∈ ds, c.isDigit = true)
    (ha : ∀ c ∈ a, c.isDigit = false)
    (_hb : ∀ c ∈ b, c.isDigit = false)
    (hsp : ∀ c ∈ cmd.toList, Py.isSpace c = true → c = ' ')
    (hg : Improved.greetingHit cmd = false)
    (hh : Improved.helpHit cmd = false)
    (hc : Improved.cancelKwHit cmd = false) :
    Improved.detect_smart_intent today cmd ctx sess =
      Improved.Intent.pnrStatus (some (String.mk ds)) := by
  have hpnr := Improved.extractPnrSeq_single_run cmd a ds b hsplit hlen hd ha hsp
  unfold Improved.detect_smart_intent
  simp only [hg, hh, hc, hpnr, Bool.false_eq_true, if_false, Option.isSome_some,
    if_true]
  by_cases hst : Improved.statusKwHit cmd = true
  · simp [hst]
  · simp [hst]

/-- C1, witness for the amended theorem: a concrete utterance with one
contiguous 10-digit run, classified as PNR-status with that run. -/
theorem claim_C1_witness :
    "pnr 1234567890 please".toList =
      "pnr ".toList ++ "1234567890".toList ++ " please".toList ∧
    Improved.greetingHit "pnr 1234567890 please" = false ∧
    Improved.cancelKwHit "pnr 1234567890 please" = false ∧
    Improved.detect_smart_intent 0 "pnr 1234567890 please" ctxA sessEmpty =
      Improved.Intent.pnrStatus (some "1234567890") := by
  refine ⟨by decide, by decide, by decide, ?_⟩
  exact claim_C1_amended 0 "pnr 1234567890 please" ctxA sessEmpty
    "pnr ".toList "1234567890".toList " please".toList (by decide) (by decide)
    (by decide) (by decide) (by decide) (by decide) (by decide) (by decide)
    (by decide)

/-- C7, amended: the phone extractor returns a value exactly when the
digits found in the utterance (digit characters first, then spelled
digit-words) number at least 10 — not exactly 10 — and the returned value
is the first ten of those digits; with fewer than ten digits it returns
not-found. -/
theorem claim_C7_amended (text : String) :
    ((Routes.extract_phone text).isSome = true ↔
      10 ≤ (Routes.phoneDigits text).length) ∧
    (∀ p : String, Routes.extract_phone text = some p →
      p.length = 10 ∧ p = String.mk ((Routes.phoneDigits text).take 10)) := by
  simp only [Routes.extract_phone]
  by_cases h : 10 ≤ (Routes.phoneDigits text).length
  · refine ⟨by simp [h], ?_⟩
    intro p hp
    rw [if_pos h] at hp
    obtain rfl : String.mk ((Routes.phoneDigits text).take 10) = p :=
      Option.some.inj hp
    refine ⟨?_, rfl⟩
    show ((Routes.phoneDigits text).take 10).length = 10
    rw [List.length_take]
    exact Nat.min_eq_left h
  · refine ⟨by simp [h], ?_⟩
    intro p hp
    rw [if_neg h] at hp
    exact absurd hp (by simp)

/-- C7, witness for the amended theorem: ten digits in the utterance yield
exactly those ten digits as the phone value. -/
theorem claim_C7_witness :
    10 ≤ (Routes.phoneDigits "call 9876543210").length ∧
    (Routes.extract_phone "call 9876543210").isSome = true ∧
    ("9876543210" : String).length = 10 := by
  refine ⟨by decide, ?_, ?_⟩
  · exact (claim_C7_amended "call 9876543210").1.mpr (by decide)
  · exact ((claim_C7_amended "call 9876543210").2 "9876543210" (by decide)).1
